import Mathlib

/-!
Verification of the Beot focus-session timer.

The development shallowly embeds the parts of the Go source relevant to
the specification:
* the session timer state machine of `src/ui/timer.go`
  (`TimerModel`, `Update`, `Init`, the content loaders), with Bubble Tea
  commands reified as the `Cmd` datatype and the persistence collaborator
  reified as an `Env` of lookup results;
* the streak calculator `calculateStreaks` of `src/db/sessions.go`
  (shipped here as `src/unnamed/part_002`), over calendar days modelled
  as integers at day granularity;
* a small event-loop model for the scheduling discipline of the periodic
  tick commands.
-/

namespace Beot

/-! ## Data model (src/ui/timer.go, src/db/quotes.go, src/db/poems.go) -/

/-- `DisplayMode` determines what content is shown during the timer. -/
inductive DisplayMode
  | quotes
  | poems
deriving DecidableEq, Repr

/-- A motivational quote record (db/quotes.go). -/
structure Quote where
  text : String
  source : String
deriving DecidableEq, Repr

/-- A poem passage record (db/poems.go). -/
structure Poem where
  oldEnglish : String
  modernEnglish : String
  source : String
  lineRef : String
deriving DecidableEq, Repr

/-- `TimerCompleteMsg` is the session-outcome event emitted when the timer
finishes or is abandoned (`completed` true = completed, false = abandoned).
Timestamps are abstract integers. -/
structure TimerCompleteMsg where
  completed : Bool
  subjectID : String
  subjectName : String
  duration : Int
  startedAt : Int
deriving DecidableEq, Repr

/-- The timer model of src/ui/timer.go.  The `progress` field of the Go
struct is pure rendering state (a progress-bar widget) and carries no
state-machine information, so it is not part of the embedding. -/
structure TimerModel where
  totalSeconds : Int
  remainingSeconds : Int
  running : Bool
  confirming : Bool
  currentQuote : String
  currentSource : String
  currentOldEnglish : String
  currentModernEnglish : String
  currentPoemSource : String
  currentPoemLineRef : String
  displayMode : DisplayMode
  subjectID : String
  subjectName : String
  startedAt : Int
deriving DecidableEq, Repr

/-- Key inputs distinguished by `TimerModel.Update`; `other` stands for any
other key string. -/
inductive Key
  | q
  | space
  | r
  | y
  | n
  | esc
  | ctrlC
  | other
deriving DecidableEq, Repr

/-- The Bubble Tea messages processed by `TimerModel.Update`:
key presses, the one-second countdown tick (`tickMsg`), the
content-rotation tick (`quoteTickMsg`), and progress-bar frames. -/
inductive Msg
  | key (k : Key)
  | tick
  | quoteTick
  | frame
deriving DecidableEq, Repr

/-- The commands `TimerModel.Update` can return, reified as data:
`tick` schedules a one-second `tickMsg`, `quoteTick` schedules a
3-minute `quoteTickMsg`, `emit` delivers a `TimerCompleteMsg` to the
caller, `quit` exits the program, `frame` is a progress-bar animation
command. -/
inductive Cmd
  | none
  | tick
  | quoteTick
  | batch (c₁ c₂ : Cmd)
  | emit (o : TimerCompleteMsg)
  | quit
  | frame
deriving DecidableEq, Repr

/-- Results of the persistence collaborator's content lookups, as seen by
the timer: `GetRandomQuoteForSubject` and `GetRandomPoem` each return a
value-or-nil together with a possible error. -/
structure Env where
  quoteResult : Except String (Option Quote)
  poemResult : Except String (Option Poem)

/-! ## The timer operations (src/ui/timer.go) -/

/-- `loadRandomQuote`: on a lookup error or a nil quote, fall back to the
built-in default; otherwise install the fetched quote. -/
def loadRandomQuote (res : Except String (Option Quote)) (m : TimerModel) :
    TimerModel :=
  match res with
  | .error _ =>
      { m with currentQuote := "Focus on your task.", currentSource := "" }
  | .ok Option.none =>
      { m with currentQuote := "Focus on your task.", currentSource := "" }
  | .ok (Option.some quote) =>
      { m with currentQuote := quote.text, currentSource := quote.source }

/-- `loadRandomPoem`: on a lookup error or a nil poem, fall back to the
built-in Beowulf passage; otherwise install the fetched poem. -/
def loadRandomPoem (res : Except String (Option Poem)) (m : TimerModel) :
    TimerModel :=
  match res with
  | .error _ =>
      { m with
          currentOldEnglish := "Wyrd oft nereð\nunfǽgne eorl, þonne his ellen déah",
          currentModernEnglish := "Fate often saves\nan undoomed man, when his courage holds",
          currentPoemSource := "Beowulf",
          currentPoemLineRef := "lines 572-573" }
  | .ok Option.none =>
      { m with
          currentOldEnglish := "Wyrd oft nereð\nunfǽgne eorl, þonne his ellen déah",
          currentModernEnglish := "Fate often saves\nan undoomed man, when his courage holds",
          currentPoemSource := "Beowulf",
          currentPoemLineRef := "lines 572-573" }
  | .ok (Option.some poem) =>
      { m with
          currentOldEnglish := poem.oldEnglish,
          currentModernEnglish := poem.modernEnglish,
          currentPoemSource := poem.source,
          currentPoemLineRef := poem.lineRef }

/-- `loadRandomContent` dispatches on the display mode. -/
def loadRandomContent (env : Env) (m : TimerModel) : TimerModel :=
  if m.displayMode = DisplayMode.poems then loadRandomPoem env.poemResult m
  else loadRandomQuote env.quoteResult m

/-- `NewTimerModelWithMode` creates a timer with the given display mode:
`seconds := minutes * 60`, the timer starts running and not confirming,
and the initial content is loaded according to the mode. -/
def NewTimerModelWithMode (env : Env) (minutes : Int)
    (subjectID subjectName : String) (mode : DisplayMode) (startedAt : Int) :
    TimerModel :=
  let seconds := minutes * 60
  let m : TimerModel :=
    { totalSeconds := seconds
      remainingSeconds := seconds
      running := true
      confirming := false
      currentQuote := ""
      currentSource := ""
      currentOldEnglish := ""
      currentModernEnglish := ""
      currentPoemSource := ""
      currentPoemLineRef := ""
      displayMode := mode
      subjectID := subjectID
      subjectName := subjectName
      startedAt := startedAt }
  loadRandomContent env m

/-- `NewTimerModel` creates a timer in quotes mode. -/
def NewTimerModel (env : Env) (minutes : Int)
    (subjectID subjectName : String) (startedAt : Int) : TimerModel :=
  NewTimerModelWithMode env minutes subjectID subjectName DisplayMode.quotes
    startedAt

/-- The `TimerCompleteMsg` the timer constructs from its fields
(`Duration` is `totalSeconds / 60` with Go's truncated integer division). -/
def completeMsg (m : TimerModel) (completed : Bool) : TimerCompleteMsg :=
  { completed := completed
    subjectID := m.subjectID
    subjectName := m.subjectName
    duration := Int.tdiv m.totalSeconds 60
    startedAt := m.startedAt }

/-- `TimerModel.Init` returns `tea.Batch(tickCmd(), quoteTickCmd())`. -/
def initCmd : Cmd := Cmd.batch Cmd.tick Cmd.quoteTick

/-- `TimerModel.Update` of src/ui/timer.go, translated case by case. -/
def update (env : Env) (m : TimerModel) (msg : Msg) : TimerModel × Cmd :=
  match msg with
  | .key k =>
      if m.remainingSeconds ≤ 0 then
        (m, Cmd.emit (completeMsg m true))
      else if m.confirming then
        match k with
        | .y => (m, Cmd.emit (completeMsg m false))
        | .n => ({ m with confirming := false, running := true }, Cmd.tick)
        | .esc => ({ m with confirming := false, running := true }, Cmd.tick)
        | _ => (m, Cmd.none)
      else
        match k with
        | .ctrlC => (m, Cmd.quit)
        | .q => ({ m with confirming := true, running := false }, Cmd.none)
        | .space =>
            let m' := { m with running := !m.running }
            if m'.running then (m', Cmd.tick) else (m', Cmd.none)
        | .r =>
            ({ m with remainingSeconds := m.totalSeconds, running := true },
              Cmd.tick)
        | _ => (m, Cmd.none)
  | .tick =>
      if m.running = true ∧ 0 < m.remainingSeconds then
        let m' := { m with remainingSeconds := m.remainingSeconds - 1 }
        if m'.remainingSeconds ≤ 0 then
          ({ m' with running := false }, Cmd.emit (completeMsg m' true))
        else
          (m', Cmd.tick)
      else
        (m, Cmd.none)
  | .quoteTick =>
      if m.running = true then (loadRandomContent env m, Cmd.quoteTick)
      else (m, Cmd.none)
  | .frame => (m, Cmd.frame)

/-! ## State abstraction

The spec's four states, read off the model fields.  A model with
`remainingSeconds ≤ 0` is `Complete` (the `Update` function checks this
first on every key press); among the models still counting down,
`confirming` distinguishes `ConfirmingAbandon`, and `running`
distinguishes `Running` from `Paused`. -/

/-- The model is in the spec's `Running` state. -/
def IsRunningState (m : TimerModel) : Prop :=
  0 < m.remainingSeconds ∧ m.confirming = false ∧ m.running = true

/-- The model is in the spec's `Paused` state. -/
def IsPausedState (m : TimerModel) : Prop :=
  0 < m.remainingSeconds ∧ m.confirming = false ∧ m.running = false

/-- The model is in the spec's `ConfirmingAbandon` state. -/
def IsConfirmingState (m : TimerModel) : Prop :=
  0 < m.remainingSeconds ∧ m.confirming = true

/-- The model is in the spec's `Complete` state (on completion the code
also clears `running`). -/
def IsCompleteState (m : TimerModel) : Prop :=
  m.remainingSeconds ≤ 0 ∧ m.running = false

instance (m : TimerModel) : Decidable (IsRunningState m) := by
  unfold IsRunningState; infer_instance

instance (m : TimerModel) : Decidable (IsPausedState m) := by
  unfold IsPausedState; infer_instance

instance (m : TimerModel) : Decidable (IsConfirmingState m) := by
  unfold IsConfirmingState; infer_instance

instance (m : TimerModel) : Decidable (IsCompleteState m) := by
  unfold IsCompleteState; infer_instance

/-- The session outcomes a command delivers to the caller. -/
def emittedOutcomes : Cmd → List TimerCompleteMsg
  | Cmd.emit o => [o]
  | Cmd.batch c₁ c₂ => emittedOutcomes c₁ ++ emittedOutcomes c₂
  | _ => []

/-- How many one-second ticks a command schedules. -/
def cmdTicks : Cmd → Nat
  | Cmd.tick => 1
  | Cmd.batch c₁ c₂ => cmdTicks c₁ + cmdTicks c₂
  | _ => 0

/-- How many content-rotation ticks a command schedules. -/
def cmdQuoteTicks : Cmd → Nat
  | Cmd.quoteTick => 1
  | Cmd.batch c₁ c₂ => cmdQuoteTicks c₁ + cmdQuoteTicks c₂
  | _ => 0

/-! ## Event-loop model

Bubble Tea drives the model from a single serialized queue.  A scheduled
`tea.Tick` fires at most once; the loop state below tracks how many
one-second ticks and rotation ticks are currently scheduled.  A timer
message can only be delivered when such a timer is actually pending;
delivering any message consumes the pending timer (if it was one) and
adds whatever the returned command schedules. -/

structure LoopState where
  model : TimerModel
  pendingTicks : Nat
  pendingQuoteTicks : Nat
deriving DecidableEq, Repr

/-- Process one delivered message through `update` and adjust the pending
timer counts. -/
def deliver (env : Env) (s : LoopState) (msg : Msg) : LoopState :=
  let r := update env s.model msg
  { model := r.1
    pendingTicks :=
      s.pendingTicks - (if msg = Msg.tick then 1 else 0) + cmdTicks r.2
    pendingQuoteTicks :=
      s.pendingQuoteTicks - (if msg = Msg.quoteTick then 1 else 0) +
        cmdQuoteTicks r.2 }

/-- One loop step: a timer message is delivered only when a matching timer
is pending; otherwise nothing happens.  Key and frame messages are always
deliverable. -/
def stepLoop (env : Env) (s : LoopState) (msg : Msg) : LoopState :=
  match msg with
  | Msg.tick => if s.pendingTicks = 0 then s else deliver env s Msg.tick
  | Msg.quoteTick =>
      if s.pendingQuoteTicks = 0 then s else deliver env s Msg.quoteTick
  | m => deliver env s m

/-- Run the loop over a list of (environment, message) events. -/
def runLoop (s : LoopState) : List (Env × Msg) → LoopState
  | [] => s
  | e :: rest => runLoop (stepLoop e.1 s e.2) rest

/-- The loop state right after the timer screen starts: a fresh model and
the timers scheduled by `TimerModel.Init`. -/
def initLoop (env : Env) (minutes : Int) (subjectID subjectName : String)
    (mode : DisplayMode) (startedAt : Int) : LoopState :=
  { model := NewTimerModelWithMode env minutes subjectID subjectName mode
      startedAt
    pendingTicks := cmdTicks initCmd
    pendingQuoteTicks := cmdQuoteTicks initCmd }

/-- The displayed-content fields of a model, bundled. -/
def contentOf (m : TimerModel) :
    String × String × String × String × String × String :=
  (m.currentQuote, m.currentSource, m.currentOldEnglish,
    m.currentModernEnglish, m.currentPoemSource, m.currentPoemLineRef)

/-! ## Streak calculator (calculateStreaks, src/unnamed/part_002)

Dates are modelled at day granularity as integers (a day index); the Go
code first reduces completion timestamps to distinct calendar days and
bubble-sorts them descending, which is exactly the strictly-descending
enumeration of the set of days. -/

/-- The distinct completion days sorted descending (the Go code deduplicates
through a map keyed on the formatted date and then sorts descending; the
result is the strictly descending enumeration of the distinct days). -/
def sortedDaysOf (days : List Int) : List Int :=
  days.dedup.insertionSort (· ≥ ·)

/-- The walk of the current-streak loop: count while consecutive sorted
days differ by exactly one, stop at the first larger gap. -/
def currentStreakRun : Int → List Int → Int
  | _, [] => 0
  | prev, curr :: rest =>
      if prev - curr = 1 then 1 + currentStreakRun curr rest else 0

/-- Current streak: starts counting only when the most recent completion
day is today or yesterday. -/
def currentStreakOf (today : Int) (sorted : List Int) : Int :=
  match sorted with
  | [] => 0
  | mostRecent :: rest =>
      if mostRecent = today ∨ mostRecent = today - 1 then
        1 + currentStreakRun mostRecent rest
      else 0

/-- The longest-streak loop: accumulate the run while consecutive days
differ by exactly one, fold the run into the maximum at each gap and once
more at the end. -/
def longestStreakAux : Int → Int → Int → List Int → Int
  | _, streak, longest, [] => if streak > longest then streak else longest
  | prev, streak, longest, curr :: rest =>
      if prev - curr = 1 then longestStreakAux curr (streak + 1) longest rest
      else
        longestStreakAux curr 1
          (if streak > longest then streak else longest) rest

/-- Longest streak over the sorted distinct days. -/
def longestStreakOf : List Int → Int
  | [] => 0
  | first :: rest => longestStreakAux first 1 0 rest

/-- `calculateStreaks`: from the (arbitrarily ordered, possibly duplicated)
completion days and the current day, the pair
(current streak, longest streak). -/
def calculateStreaks (today : Int) (completionDays : List Int) : Int × Int :=
  if completionDays.isEmpty then (0, 0)
  else
    (currentStreakOf today (sortedDaysOf completionDays),
      longestStreakOf (sortedDaysOf completionDays))

/-! ## CLI surface -/

/-- Modelled from the spec: the released executable's entry point (version
flag handling, persistence connect and exit codes) is not among the source
files — `src/main.go` is an earlier tutorial revision without the CLI
surface, while the changelog documents the released `--version` flag.
Per the spec, `--version`/`-v` prints version metadata and exits;
otherwise the interactive session is launched. -/
inductive CliAction
  | printVersionAndExit
  | runInteractive
deriving DecidableEq, Repr

/-- Modelled from the spec: dispatch on the optional `--version`/`-v`
flag. -/
def parseCli (args : List String) : CliAction :=
  if args.contains "--version" ∨ args.contains "-v" then
    CliAction.printVersionAndExit
  else CliAction.runInteractive

/-- Modelled from the spec: the process exit code, given whether the
startup connection to the persistence store succeeds — 1 on
persistence-connection failure at startup, 0 otherwise (and 0 on the
version path, which exits before connecting). -/
def exitCode (args : List String) (connectOk : Bool) : Nat :=
  match parseCli args with
  | CliAction.printVersionAndExit => 0
  | CliAction.runInteractive => if connectOk then 0 else 1

/-! ## Concrete instances used by witnesses and counterexamples -/

/-- An environment in which both content lookups return "no content". -/
def envEmpty : Env :=
  { quoteResult := Except.ok Option.none, poemResult := Except.ok Option.none }

/-- A freshly started 1-minute timer in quotes mode. -/
def sampleModel : TimerModel :=
  NewTimerModelWithMode envEmpty 1 "s1" "GoLang" DisplayMode.quotes 0

/-- The sample timer one tick away from completion (reachable from
`sampleModel` by 59 ticks). -/
def almostDoneModel : TimerModel :=
  { sampleModel with remainingSeconds := 1 }

/-- The state reached by ticking the almost-done timer once: the timer has
completed (`remainingSeconds = 0`, `running = false`). -/
def completeModel : TimerModel :=
  (update envEmpty almostDoneModel Msg.tick).1

/-- The sample timer while the abandon confirmation is showing. -/
def confirmModel : TimerModel :=
  (update envEmpty sampleModel (Msg.key Key.q)).1

/-- The sample timer while paused. -/
def pausedModel : TimerModel :=
  (update envEmpty sampleModel (Msg.key Key.space)).1

/-- The countdown-relevant fields of a model, bundled. -/
def countdownOf (m : TimerModel) : Int × Int × Bool × Bool :=
  (m.remainingSeconds, m.totalSeconds, m.running, m.confirming)

/-! ## Helper lemmas -/

/-- Loading a quote never touches the countdown fields. -/
lemma loadRandomQuote_preserves (res : Except String (Option Quote))
    (m : TimerModel) :
    (loadRandomQuote res m).remainingSeconds = m.remainingSeconds ∧
    (loadRandomQuote res m).totalSeconds = m.totalSeconds ∧
    (loadRandomQuote res m).running = m.running ∧
    (loadRandomQuote res m).confirming = m.confirming := by
  rcases res with e | q
  · simp [loadRandomQuote]
  · rcases q with _ | q <;> simp [loadRandomQuote]

/-- Loading a poem never touches the countdown fields. -/
lemma loadRandomPoem_preserves (res : Except String (Option Poem))
    (m : TimerModel) :
    (loadRandomPoem res m).remainingSeconds = m.remainingSeconds ∧
    (loadRandomPoem res m).totalSeconds = m.totalSeconds ∧
    (loadRandomPoem res m).running = m.running ∧
    (loadRandomPoem res m).confirming = m.confirming := by
  rcases res with e | p
  · simp [loadRandomPoem]
  · rcases p with _ | p <;> simp [loadRandomPoem]

/-- Loading content never touches the countdown fields. -/
lemma loadRandomContent_preserves (env : Env) (m : TimerModel) :
    (loadRandomContent env m).remainingSeconds = m.remainingSeconds ∧
    (loadRandomContent env m).totalSeconds = m.totalSeconds ∧
    (loadRandomContent env m).running = m.running ∧
    (loadRandomContent env m).confirming = m.confirming := by
  unfold loadRandomContent
  split
  · exact loadRandomPoem_preserves env.poemResult m
  · exact loadRandomQuote_preserves env.quoteResult m


/-- C1: ticking a `Running` timer with remaining > 1 decrements remaining
by exactly 1 and stays `Running` (emitting nothing); ticking with
remaining = 1 sets remaining to 0, stops the countdown (running cleared,
no tick rescheduled) and emits `SessionOutcome{completed: true}` exactly
once. -/
theorem tick_running_decrement_and_complete (env : Env) (m : TimerModel)
    (hrun : IsRunningState m) :
    (1 < m.remainingSeconds →
      (update env m Msg.tick).1.remainingSeconds = m.remainingSeconds - 1 ∧
      IsRunningState (update env m Msg.tick).1 ∧
      emittedOutcomes (update env m Msg.tick).2 = []) ∧
    (m.remainingSeconds = 1 →
      (update env m Msg.tick).1.remainingSeconds = 0 ∧
      (update env m Msg.tick).1.running = false ∧
      cmdTicks (update env m Msg.tick).2 = 0 ∧
      (emittedOutcomes (update env m Msg.tick).2).map
        TimerCompleteMsg.completed = [true]) := by
  obtain ⟨hpos, hconf, hrunning⟩ := hrun
  constructor
  · intro hgt
    simp only [update, hrunning, true_and, if_pos hpos]
    rw [if_neg (by simp; omega)]
    refine ⟨rfl, ⟨by simp; omega, by simpa using hconf, by simp⟩, rfl⟩
  · intro heq
    simp only [update, hrunning, true_and, if_pos hpos]
    rw [if_pos (by simp; omega)]
    refine ⟨by simp; omega, rfl, rfl, rfl⟩

/-- Witness for C1 at the fresh 1-minute timer. -/
theorem tick_running_decrement_and_complete_witness :
    ((update envEmpty sampleModel Msg.tick).1.remainingSeconds =
        sampleModel.remainingSeconds - 1 ∧
      IsRunningState (update envEmpty sampleModel Msg.tick).1 ∧
      emittedOutcomes (update envEmpty sampleModel Msg.tick).2 = []) ∧
    ((update envEmpty almostDoneModel Msg.tick).1.remainingSeconds = 0 ∧
      (update envEmpty almostDoneModel Msg.tick).1.running = false ∧
      cmdTicks (update envEmpty almostDoneModel Msg.tick).2 = 0 ∧
      (emittedOutcomes (update envEmpty almostDoneModel Msg.tick).2).map
        TimerCompleteMsg.completed = [true]) :=
  ⟨(tick_running_decrement_and_complete envEmpty sampleModel (by decide)).1
      (by decide),
    (tick_running_decrement_and_complete envEmpty almostDoneModel
      (by decide)).2 (by decide)⟩

/-- C3 counterexample: in the completed state any key press emits the
session outcome again, so a further `SessionOutcome` event is emitted. -/
theorem complete_key_reemits_outcome :
    IsCompleteState completeModel ∧
    emittedOutcomes (update envEmpty completeModel (Msg.key Key.space)).2 =
      [completeMsg completeModel true] := by decide

/-- C3 amended: in the `Complete` state no input changes the state and the
timer messages emit nothing, but every key press re-emits
`SessionOutcome{completed:true}` (the return-to-menu signal). -/
theorem complete_state_terminal_amended (env : Env) (m : TimerModel)
    (hc : IsCompleteState m) :
    (∀ msg, (update env m msg).1 = m) ∧
    emittedOutcomes (update env m Msg.tick).2 = [] ∧
    emittedOutcomes (update env m Msg.quoteTick).2 = [] ∧
    emittedOutcomes (update env m Msg.frame).2 = [] ∧
    (∀ k, emittedOutcomes (update env m (Msg.key k)).2 =
      [completeMsg m true]) := by
  obtain ⟨hr, hrun⟩ := hc
  refine ⟨?_, ?_, ?_, ?_, ?_⟩
  · intro msg
    rcases msg with k | _ | _ | _
    · simp only [update, if_pos hr]
    · simp only [update, hrun]
      simp
    · simp only [update, hrun]
      simp
    · simp only [update]
  · simp only [update, hrun]
    simp [emittedOutcomes]
  · simp only [update, hrun]
    simp [emittedOutcomes]
  · simp [update, emittedOutcomes]
  · intro k
    simp only [update, if_pos hr]
    simp [emittedOutcomes]

/-- Witness for the amended C3 at the completed sample timer. -/
theorem complete_state_terminal_amended_witness :
    ((update envEmpty completeModel Msg.tick).1 = completeModel ∧
      emittedOutcomes (update envEmpty completeModel Msg.tick).2 = []) ∧
    emittedOutcomes (update envEmpty completeModel (Msg.key Key.r)).2 =
      [completeMsg completeModel true] :=
  ⟨⟨(complete_state_terminal_amended envEmpty completeModel (by decide)).1
      Msg.tick,
    (complete_state_terminal_amended envEmpty completeModel
      (by decide)).2.1⟩,
    (complete_state_terminal_amended envEmpty completeModel
      (by decide)).2.2.2.2 Key.r⟩

/-- C4: from `ConfirmingAbandon`, "y" always emits the abandoned outcome
regardless of the remaining time, and "n" returns to `Running` with
remaining unchanged. -/
theorem confirming_yes_no_behaviour (env : Env) (m : TimerModel)
    (hc : IsConfirmingState m) :
    ((update env m (Msg.key Key.y)).2 =
      Cmd.emit (completeMsg m false) ∧
      (emittedOutcomes (update env m (Msg.key Key.y)).2).map
        TimerCompleteMsg.completed = [false]) ∧
    (IsRunningState (update env m (Msg.key Key.n)).1 ∧
      (update env m (Msg.key Key.n)).1.remainingSeconds =
        m.remainingSeconds ∧
      (update env m (Msg.key Key.n)).1.totalSeconds = m.totalSeconds) := by
  obtain ⟨hpos, hconf⟩ := hc
  have hr : ¬ m.remainingSeconds ≤ 0 := by omega
  constructor
  · simp only [update, if_neg hr, hconf]
    simp [emittedOutcomes, completeMsg]
  · simp only [update, if_neg hr, hconf]
    exact ⟨⟨by simpa using hpos, by simp, by simp⟩, by simp, by simp⟩

/-- Witness for C4 at the confirming sample timer. -/
theorem confirming_yes_no_behaviour_witness :
    IsConfirmingState confirmModel ∧
    (emittedOutcomes (update envEmpty confirmModel (Msg.key Key.y)).2).map
      TimerCompleteMsg.completed = [false] ∧
    IsRunningState (update envEmpty confirmModel (Msg.key Key.n)).1 ∧
    (update envEmpty confirmModel (Msg.key Key.n)).1.remainingSeconds =
      confirmModel.remainingSeconds :=
  ⟨by decide,
    (confirming_yes_no_behaviour envEmpty confirmModel (by decide)).1.2,
    (confirming_yes_no_behaviour envEmpty confirmModel (by decide)).2.1,
    (confirming_yes_no_behaviour envEmpty confirmModel (by decide)).2.2.1⟩

/-- C5: a fresh timer has remaining = total = minutes×60, and every step of
the state machine keeps remaining within [0, total]. -/
theorem remaining_within_bounds_invariant :
    (∀ (env : Env) (minutes : Int) (sid sname : String) (mode : DisplayMode)
        (st : Int), 0 ≤ minutes →
      (NewTimerModelWithMode env minutes sid sname mode st).remainingSeconds =
        minutes * 60 ∧
      (NewTimerModelWithMode env minutes sid sname mode st).totalSeconds =
        minutes * 60) ∧
    (∀ (env : Env) (m : TimerModel) (msg : Msg),
      0 ≤ m.remainingSeconds → m.remainingSeconds ≤ m.totalSeconds →
      0 ≤ (update env m msg).1.remainingSeconds ∧
      (update env m msg).1.remainingSeconds ≤
        (update env m msg).1.totalSeconds) := by
  constructor
  · intro env minutes sid sname mode st _
    simp only [NewTimerModelWithMode]
    exact ⟨(loadRandomContent_preserves _ _).1,
      (loadRandomContent_preserves _ _).2.1⟩
  · intro env m msg h1 h2
    rcases msg with k | _ | _ | _
    · rcases k <;> simp only [update] <;> split_ifs <;> simp <;> omega
    · simp only [update]
      split_ifs with hg hz
      · simp
        omega
      · simp
        omega
      · exact ⟨h1, h2⟩
    · simp only [update]
      split_ifs with hg
      · obtain ⟨e1, e2, _, _⟩ := loadRandomContent_preserves env m
        rw [e1, e2]
        exact ⟨h1, h2⟩
      · exact ⟨h1, h2⟩
    · exact ⟨h1, h2⟩

/-- Witness for C5 at a fresh 1-minute timer and a tick step. -/
theorem remaining_within_bounds_invariant_witness :
    ((NewTimerModelWithMode envEmpty 1 "s1" "GoLang" DisplayMode.quotes
        0).remainingSeconds = 60 ∧
      (NewTimerModelWithMode envEmpty 1 "s1" "GoLang" DisplayMode.quotes
        0).totalSeconds = 60) ∧
    (0 ≤ (update envEmpty sampleModel Msg.tick).1.remainingSeconds ∧
      (update envEmpty sampleModel Msg.tick).1.remainingSeconds ≤
        (update envEmpty sampleModel Msg.tick).1.totalSeconds) :=
  ⟨remaining_within_bounds_invariant.1 envEmpty 1 "s1" "GoLang"
      DisplayMode.quotes 0 (by decide),
    remaining_within_bounds_invariant.2 envEmpty sampleModel Msg.tick
      (by decide) (by decide)⟩

/-- C6: pausing then resuming with no tick in between restores the exact
model, and a tick while paused changes nothing. -/
theorem pause_resume_frame (env : Env) (m : TimerModel)
    (hr : IsRunningState m) :
    (IsPausedState (update env m (Msg.key Key.space)).1 ∧
      (update env (update env m (Msg.key Key.space)).1
        (Msg.key Key.space)).1 = m) ∧
    (∀ m' : TimerModel, IsPausedState m' →
      (update env m' Msg.tick).1 = m' ∧
      (update env m' Msg.tick).1.remainingSeconds =
        m'.remainingSeconds) := by
  obtain ⟨hpos, hconf, hrun⟩ := hr
  have h1 : (update env m (Msg.key Key.space)).1 =
      { m with running := false } := by
    simp only [update, if_neg (show ¬ m.remainingSeconds ≤ 0 by omega), hconf]
    simp [hrun]
  constructor
  · constructor
    · rw [h1]
      exact ⟨hpos, hconf, rfl⟩
    · rw [h1]
      simp only [update, if_neg (show ¬ m.remainingSeconds ≤ 0 by omega),
        hconf]
      simp only [Bool.not_false, if_pos]
      cases m
      simp_all
  · intro m' hp
    obtain ⟨hpos', hconf', hrun'⟩ := hp
    constructor
    · simp only [update, hrun']
      simp
    · simp only [update, hrun']
      simp

/-- Witness for C6 at the fresh 1-minute timer. -/
theorem pause_resume_frame_witness :
    (IsPausedState (update envEmpty sampleModel (Msg.key Key.space)).1 ∧
      (update envEmpty (update envEmpty sampleModel (Msg.key Key.space)).1
        (Msg.key Key.space)).1 = sampleModel) ∧
    ((update envEmpty pausedModel Msg.tick).1 = pausedModel ∧
      (update envEmpty pausedModel Msg.tick).1.remainingSeconds =
        pausedModel.remainingSeconds) :=
  ⟨(pause_resume_frame envEmpty sampleModel (by decide)).1,
    (pause_resume_frame envEmpty sampleModel (by decide)).2 pausedModel
      (by decide)⟩

/-- C7 counterexample: the completed timer is a non-confirming state, yet
the reset key does not restore remaining = total and does not return to
`Running`. -/
theorem reset_in_complete_state_counterexample :
    completeModel.confirming = false ∧
    completeModel.totalSeconds = 60 ∧
    completeModel.remainingSeconds = 0 ∧
    ¬ ((update envEmpty completeModel (Msg.key Key.r)).1.remainingSeconds =
        completeModel.totalSeconds ∧
      (update envEmpty completeModel (Msg.key Key.r)).1.running = true) := by
  decide

/-- C7 amended: reset restores remaining = total and moves to `Running`
in the non-confirming states that are still counting down (`Running`,
`Paused`); in `ConfirmingAbandon` it has no effect; in `Complete` it is
treated like any other key and leaves the state unchanged. -/
theorem reset_behaviour_amended (env : Env) (m : TimerModel) :
    (0 < m.remainingSeconds → m.confirming = false →
      m.remainingSeconds ≤ m.totalSeconds →
      (update env m (Msg.key Key.r)).1.remainingSeconds = m.totalSeconds ∧
      IsRunningState (update env m (Msg.key Key.r)).1) ∧
    (0 < m.remainingSeconds → m.confirming = true →
      (update env m (Msg.key Key.r)).1 = m ∧
      (update env m (Msg.key Key.r)).2 = Cmd.none) ∧
    (IsCompleteState m → (update env m (Msg.key Key.r)).1 = m) := by
  refine ⟨?_, ?_, ?_⟩
  · intro hpos hconf hle
    simp only [update, if_neg (show ¬ m.remainingSeconds ≤ 0 by omega),
      hconf]
    refine ⟨by simp, ⟨by simp; omega, by simp [hconf], by simp⟩⟩
  · intro hpos hconf
    simp only [update, if_neg (show ¬ m.remainingSeconds ≤ 0 by omega),
      hconf]
    simp
  · intro hc
    simp only [update, if_pos hc.1]

/-- Witness for the amended C7 at the running, confirming and completed
sample states. -/
theorem reset_behaviour_amended_witness :
    ((update envEmpty sampleModel (Msg.key Key.r)).1.remainingSeconds =
        sampleModel.totalSeconds ∧
      IsRunningState (update envEmpty sampleModel (Msg.key Key.r)).1) ∧
    ((update envEmpty confirmModel (Msg.key Key.r)).1 = confirmModel ∧
      (update envEmpty confirmModel (Msg.key Key.r)).2 = Cmd.none) ∧
    (update envEmpty completeModel (Msg.key Key.r)).1 = completeModel :=
  ⟨(reset_behaviour_amended envEmpty sampleModel).1 (by decide) (by decide)
      (by decide),
    (reset_behaviour_amended envEmpty confirmModel).2.1 (by decide)
      (by decide),
    (reset_behaviour_amended envEmpty completeModel).2.2 (by decide)⟩

/-- A list that is already without duplicates and sorted descending is its
own sorted-distinct-days enumeration. -/
lemma sortedDaysOf_self {l : List Int} (hnd : l.Nodup)
    (hs : l.Sorted (· ≥ ·)) : sortedDaysOf l = l := by
  unfold sortedDaysOf
  rw [List.dedup_eq_self.mpr hnd, hs.insertionSort_eq]

/-- C2: the streak calculator on the reference inputs, with `t` standing
for today, plus invariance under duplicated days. -/
theorem calculateStreaks_reference_cases (t : Int) :
    calculateStreaks t [] = (0, 0) ∧
    calculateStreaks t [t] = (1, 1) ∧
    calculateStreaks t [t, t - 1, t - 2] = (3, 3) ∧
    calculateStreaks t [t - 1] = (1, 1) ∧
    calculateStreaks t [t, t - 3] = (1, 1) ∧
    calculateStreaks t [t - 10, t - 11, t - 12, t - 13, t - 14] = (0, 5) ∧
    (∀ (l : List Int) (d : Int), d ∈ l →
      calculateStreaks t (d :: l) = calculateStreaks t l) := by
  refine ⟨?_, ?_, ?_, ?_, ?_, ?_, ?_⟩
  · simp [calculateStreaks]
  · unfold calculateStreaks
    rw [if_neg (by simp), sortedDaysOf_self (by simp) (by simp)]
    norm_num [currentStreakOf, currentStreakRun, longestStreakOf,
      longestStreakAux]
  · unfold calculateStreaks
    rw [if_neg (by simp), sortedDaysOf_self (by simp <;> omega)
      (by simp [List.sorted_cons] <;> omega)]
    norm_num [currentStreakOf, currentStreakRun, longestStreakOf,
      longestStreakAux]
  · unfold calculateStreaks
    rw [if_neg (by simp), sortedDaysOf_self (by simp) (by simp)]
    norm_num [currentStreakOf, currentStreakRun, longestStreakOf,
      longestStreakAux]
  · unfold calculateStreaks
    rw [if_neg (by simp), sortedDaysOf_self (by simp <;> omega)
      (by simp [List.sorted_cons] <;> omega)]
    norm_num [currentStreakOf, currentStreakRun, longestStreakOf,
      longestStreakAux]
  · unfold calculateStreaks
    rw [if_neg (by simp), sortedDaysOf_self (by simp <;> omega)
      (by simp [List.sorted_cons] <;> omega)]
    norm_num [currentStreakOf, currentStreakRun, longestStreakOf,
      longestStreakAux]
  · intro l d hd
    have hne : l ≠ [] := List.ne_nil_of_mem hd
    have hsort : sortedDaysOf (d :: l) = sortedDaysOf l := by
      unfold sortedDaysOf
      rw [List.dedup_cons_of_mem hd]
    have h2 : l.isEmpty = false := by simp [hne]
    simp only [calculateStreaks, hsort, h2, List.isEmpty_cons,
      Bool.false_eq_true, if_false]

/-- Witness for C2 at a concrete today and a concrete duplicated input. -/
theorem calculateStreaks_reference_cases_witness :
    calculateStreaks 1000 [1000, 999, 998] = (3, 3) ∧
    calculateStreaks 1000 (999 :: [1000, 999]) =
      calculateStreaks 1000 [1000, 999] := by
  constructor
  · have h := (calculateStreaks_reference_cases 1000).2.2.1
    norm_num at h
    exact h
  · exact (calculateStreaks_reference_cases 1000).2.2.2.2.2.2 [1000, 999]
      999 (by decide)

/-- C8: the version flag is recognised exactly when `--version` or `-v` is
among the arguments, and the exit code is 1 exactly on the interactive
path with a failed persistence connection. -/
theorem cli_version_flag_and_exit_code (args : List String)
    (connectOk : Bool) :
    (parseCli args = CliAction.printVersionAndExit ↔
      ("--version" ∈ args ∨ "-v" ∈ args)) ∧
    exitCode args connectOk =
      (if parseCli args = CliAction.runInteractive ∧ connectOk = false
        then 1 else 0) := by
  constructor
  · unfold parseCli
    split_ifs with h
    · simpa using h
    · simpa using h
  · unfold exitCode
    rcases hp : parseCli args with _ | _
    · simp [hp]
    · rcases connectOk with _ | _ <;> simp

/-- C9: when the content lookup errors or returns nothing, the timer
installs the built-in defaults (quote or Beowulf passage) and the
countdown state is untouched; a rotation tick never changes the countdown
state either. -/
theorem content_fallback_defaults (env : Env) (m : TimerModel)
    (hq : env.quoteResult = Except.ok Option.none ∨
      ∃ e, env.quoteResult = Except.error e)
    (hp : env.poemResult = Except.ok Option.none ∨
      ∃ e, env.poemResult = Except.error e) :
    ((loadRandomQuote env.quoteResult m).currentQuote =
        "Focus on your task." ∧
      (loadRandomQuote env.quoteResult m).currentSource = "") ∧
    ((loadRandomPoem env.poemResult m).currentOldEnglish =
        "Wyrd oft nereð\nunfǽgne eorl, þonne his ellen déah" ∧
      (loadRandomPoem env.poemResult m).currentModernEnglish =
        "Fate often saves\nan undoomed man, when his courage holds" ∧
      (loadRandomPoem env.poemResult m).currentPoemSource = "Beowulf" ∧
      (loadRandomPoem env.poemResult m).currentPoemLineRef =
        "lines 572-573") ∧
    countdownOf (update env m Msg.quoteTick).1 = countdownOf m := by
  have hcd : countdownOf (loadRandomContent env m) = countdownOf m := by
    obtain ⟨e1, e2, e3, e4⟩ := loadRandomContent_preserves env m
    simp [countdownOf, e1, e2, e3, e4]
  refine ⟨?_, ?_, ?_⟩
  · rcases hq with hq | ⟨e, hq⟩ <;> rw [hq] <;> simp [loadRandomQuote]
  · rcases hp with hp | ⟨e, hp⟩ <;> rw [hp] <;> simp [loadRandomPoem]
  · simp only [update]
    split_ifs
    · exact hcd
    · rfl

/-- Witness for C9 in the no-content environment. -/
theorem content_fallback_defaults_witness :
    ((loadRandomQuote envEmpty.quoteResult sampleModel).currentQuote =
        "Focus on your task." ∧
      (loadRandomQuote envEmpty.quoteResult sampleModel).currentSource =
        "") ∧
    countdownOf (update envEmpty sampleModel Msg.quoteTick).1 =
      countdownOf sampleModel :=
  ⟨(content_fallback_defaults envEmpty sampleModel (Or.inl rfl)
      (Or.inl rfl)).1,
    (content_fallback_defaults envEmpty sampleModel (Or.inl rfl)
      (Or.inl rfl)).2.2⟩

/-- A non-rotation message never schedules a content-rotation tick. -/
lemma update_cmdQuoteTicks_eq_zero (env : Env) (m : TimerModel) (msg : Msg)
    (h : msg ≠ Msg.quoteTick) :
    cmdQuoteTicks (update env m msg).2 = 0 := by
  rcases msg with k | _ | _ | _
  · rcases k <;> simp only [update] <;> split_ifs <;>
      simp [cmdQuoteTicks]
  · simp only [update]
    split_ifs <;> simp [cmdQuoteTicks]
  · exact absurd rfl h
  · simp [update, cmdQuoteTicks]

/-- A non-rotation message never changes the displayed content. -/
lemma update_contentOf_eq (env : Env) (m : TimerModel) (msg : Msg)
    (h : msg ≠ Msg.quoteTick) :
    contentOf (update env m msg).1 = contentOf m := by
  rcases msg with k | _ | _ | _
  · rcases k <;> simp only [update] <;> split_ifs <;>
      simp [contentOf]
  · simp only [update]
    split_ifs <;> simp [contentOf]
  · exact absurd rfl h
  · simp [update, contentOf]

/-- Once no rotation tick is pending, one loop step keeps it that way and
leaves the displayed content untouched. -/
lemma stepLoop_absorb (env : Env) (s : LoopState) (msg : Msg)
    (h : s.pendingQuoteTicks = 0) :
    (stepLoop env s msg).pendingQuoteTicks = 0 ∧
    contentOf (stepLoop env s msg).model = contentOf s.model := by
  rcases hm : msg with k | _ | _ | _
  · refine ⟨?_, ?_⟩
    · simp [stepLoop, deliver, h,
        update_cmdQuoteTicks_eq_zero env s.model (Msg.key k) (by simp)]
    · simp [stepLoop, deliver,
        update_contentOf_eq env s.model (Msg.key k) (by simp)]
  · refine ⟨?_, ?_⟩
    · simp only [stepLoop]
      split_ifs
      · exact h
      · simp [deliver, h,
          update_cmdQuoteTicks_eq_zero env s.model Msg.tick (by simp)]
    · simp only [stepLoop]
      split_ifs
      · rfl
      · simp [deliver, update_contentOf_eq env s.model Msg.tick (by simp)]
  · simp [stepLoop, h]
  · refine ⟨?_, ?_⟩
    · simp [stepLoop, deliver, h,
        update_cmdQuoteTicks_eq_zero env s.model Msg.frame (by simp)]
    · simp [stepLoop, deliver,
        update_contentOf_eq env s.model Msg.frame (by simp)]

/-- Once no rotation tick is pending, any further run of the loop keeps it
that way and the displayed content never changes again. -/
lemma runLoop_absorb (s : LoopState) (evs : List (Env × Msg))
    (h : s.pendingQuoteTicks = 0) :
    (runLoop s evs).pendingQuoteTicks = 0 ∧
    contentOf (runLoop s evs).model = contentOf s.model := by
  induction evs generalizing s with
  | nil => exact ⟨h, rfl⟩
  | cons e rest ih =>
      obtain ⟨h1, h2⟩ := stepLoop_absorb e.1 s e.2 h
      obtain ⟨h3, h4⟩ := ih _ h1
      exact ⟨h3, h4.trans h2⟩

/-- C10: the rotation tick is scheduled once at start and rescheduled only
by a rotation tick processed while running; resuming and declining
abandonment schedule only the countdown tick; consuming a rotation tick
while not running drops the pending rotation count, and once it is zero no
rotation ever happens again — the content is frozen for the rest of the
session. -/
theorem quote_rotation_scheduling :
    (∀ (env : Env) (minutes : Int) (sid sname : String)
        (mode : DisplayMode) (st : Int),
      (initLoop env minutes sid sname mode st).pendingQuoteTicks = 1 ∧
      (initLoop env minutes sid sname mode st).pendingTicks = 1) ∧
    (∀ (env : Env) (m : TimerModel),
      (update env m Msg.quoteTick).2 =
        (if m.running = true then Cmd.quoteTick else Cmd.none)) ∧
    (∀ (env : Env) (m : TimerModel), IsPausedState m →
      (update env m (Msg.key Key.space)).2 = Cmd.tick) ∧
    (∀ (env : Env) (m : TimerModel), IsConfirmingState m →
      (update env m (Msg.key Key.n)).2 = Cmd.tick) ∧
    (∀ (env : Env) (m : TimerModel) (msg : Msg), msg ≠ Msg.quoteTick →
      cmdQuoteTicks (update env m msg).2 = 0) ∧
    (∀ (env : Env) (s : LoopState), s.model.running = false →
      (stepLoop env s Msg.quoteTick).pendingQuoteTicks =
        s.pendingQuoteTicks - 1 ∧
      (stepLoop env s Msg.quoteTick).model = s.model) ∧
    (∀ (s : LoopState) (evs : List (Env × Msg)),
      s.pendingQuoteTicks = 0 →
      (runLoop s evs).pendingQuoteTicks = 0 ∧
      contentOf (runLoop s evs).model = contentOf s.model) := by
  refine ⟨?_, ?_, ?_, ?_, ?_, ?_, ?_⟩
  · intro env minutes sid sname mode st
    exact ⟨rfl, rfl⟩
  · intro env m
    simp only [update]
    split_ifs <;> rfl
  · intro env m hp
    obtain ⟨hpos, hconf, hrun⟩ := hp
    simp only [update, if_neg (show ¬ m.remainingSeconds ≤ 0 by omega),
      hconf]
    simp [hrun]
  · intro env m hc
    obtain ⟨hpos, hconf⟩ := hc
    simp only [update, if_neg (show ¬ m.remainingSeconds ≤ 0 by omega),
      hconf]
    simp
  · exact update_cmdQuoteTicks_eq_zero
  · intro env s hrun
    have hupd : update env s.model Msg.quoteTick = (s.model, Cmd.none) := by
      simp [update, hrun]
    simp only [stepLoop]
    split_ifs with h0
    · exact ⟨by omega, rfl⟩
    · simp [deliver, hupd, cmdQuoteTicks]
  · exact runLoop_absorb

/-- A loop state with the sample timer paused and both timers pending. -/
def pausedLoop : LoopState :=
  { model := pausedModel, pendingTicks := 1, pendingQuoteTicks := 1 }

/-- Witness for C10: after the paused sample session consumes its rotation
tick, no later events ever rotate content again. -/
theorem quote_rotation_scheduling_witness :
    (initLoop envEmpty 1 "s1" "GoLang" DisplayMode.quotes
        0).pendingQuoteTicks = 1 ∧
    (update envEmpty pausedModel (Msg.key Key.space)).2 = Cmd.tick ∧
    (stepLoop envEmpty pausedLoop Msg.quoteTick).pendingQuoteTicks =
      pausedLoop.pendingQuoteTicks - 1 ∧
    (runLoop (stepLoop envEmpty pausedLoop Msg.quoteTick)
        [(envEmpty, Msg.quoteTick), (envEmpty, Msg.key Key.space),
          (envEmpty, Msg.tick)]).pendingQuoteTicks = 0 :=
  ⟨(quote_rotation_scheduling.1 envEmpty 1 "s1" "GoLang"
      DisplayMode.quotes 0).1,
    quote_rotation_scheduling.2.2.1 envEmpty pausedModel (by decide),
    (quote_rotation_scheduling.2.2.2.2.2.1 envEmpty pausedLoop
      (by decide)).1,
    (quote_rotation_scheduling.2.2.2.2.2.2
      (stepLoop envEmpty pausedLoop Msg.quoteTick)
      [(envEmpty, Msg.quoteTick), (envEmpty, Msg.key Key.space),
        (envEmpty, Msg.tick)] (by decide)).1⟩

end Beot
